import Mathlib

/-!
Shallow embedding of `kalshi_client.py` (KalshiClient, Kalshi Trade API v2
client) and proofs about its specified behaviour.

The Python client is embedded as pure Lean functions:
  - JSON values are the inductive `Json`;
  - the external HTTP transport (`requests.request`) is a function
    parameter `transport : HttpRequest → HttpResponse`;
  - the external crypto primitives (`private_key.sign`, `base64.b64encode`)
    are function parameters `sign`, `b64encode : String → String`;
  - the wall clock (`time.time() * 1000`, truncated to int) is a parameter
    `now_ms : Nat`;
  - exceptions become `Except ClientError`;
  - each client method additionally returns the list of HTTP requests it
    handed to the transport, so that "no network call" and "exactly one
    request, no retry" are statable.
-/

/-- JSON values, as produced by `response.json()` and sent as request
bodies / query parameter values. -/
inductive Json where
  | null : Json
  | str (s : String) : Json
  | num (n : Int) : Json
  | arr (xs : List Json) : Json
  | obj (fields : List (String × Json)) : Json

/-- Field lookup on a JSON object; `none` when the value is not an object
(Python would raise `AttributeError` on `.get`). -/
def jsonObjLookup (j : Json) (key : String) : Option (Option Json) :=
  match j with
  | Json.obj fields => some (fields.lookup key)
  | _ => none

/-- Models Python `d.get(key, default)` on a parsed JSON value: `some` of
the looked-up value (or the default) when `j` is an object, `none`
(`AttributeError`) otherwise. -/
def dictGet (j : Json) (key : String) (default : Json) : Option Json :=
  match j with
  | Json.obj fields => some ((fields.lookup key).getD default)
  | _ => none

/-- Errors the client can raise. `authError` is the `ValueError` from
`_get_auth_headers` (the spec names it `AuthenticationConfigurationError`);
`apiError` is `requests.HTTPError` from `response.raise_for_status()`,
carrying status code and raw body; `formatError` is a JSON-decode failure
from `response.json()`; `attributeError` is Python `AttributeError` from
calling `.get` on a non-dict. -/
inductive ClientError where
  | authError (msg : String) : ClientError
  | apiError (status : Nat) (body : String) : ClientError
  | formatError (body : String) : ClientError
  | attributeError : ClientError
deriving DecidableEq, Repr

/-- The outgoing HTTP request handed to `requests.request`: method, full
URL, headers, query-parameter mapping (`params=None` when no dict was
passed), optional JSON body. -/
structure HttpRequest where
  method : String
  url : String
  headers : List (String × String)
  params : Option (List (String × Json))
  json_data : Option Json

/-- The transport response: HTTP status code, raw body text, and the
result of attempting to parse the body as JSON (`none` = parse failure). -/
structure HttpResponse where
  status : Nat
  text : String
  json : Option Json

/-- `KalshiClient.DEFAULT_BASE_URL`. -/
def DEFAULT_BASE_URL : String := "https://api.elections.kalshi.com/trade-api/v2"

/-- `KalshiClient.DEMO_BASE_URL`. -/
def DEMO_BASE_URL : String := "https://demo-api.kalshi.co/trade-api/v2"

/-- Python truthiness of an `Optional[str]`: `None` and `""` are falsy. -/
def pyTruthyOptStr : Option String → Bool
  | none => false
  | some s => if s = "" then false else true

/-- Python `a or b` on `Optional[str]` values: `b` when `a` is `None` or
`""`, else `a`. -/
def pyOr (a b : Option String) : Option String :=
  match a with
  | some s => if s = "" then b else some s
  | none => b

/-- The client state fixed by `KalshiClient.__init__`: resolved
`self.api_key`, `self.private_key_pem`, `self.base_url`, and the loaded
`self._private_key` (modelled by the PEM text it was loaded from; `none`
when no key was loaded). -/
structure ClientConfig where
  api_key : Option String
  private_key_pem : Option String
  base_url : String
  private_key : Option String

/-- `KalshiClient.__init__(api_key, private_key_pem, base_url, demo)`
with the process environment passed explicitly: `env_api_key` models
`os.environ.get("KALSHI_API_KEY")` and `env_private_key` models
`os.environ.get("KALSHI_PRIVATE_KEY")`. -/
def kalshiClientInit (api_key private_key_pem base_url : Option String)
    (demo : Bool) (env_api_key env_private_key : Option String) : ClientConfig :=
  let resolved_api_key := pyOr api_key env_api_key
  let resolved_pem := pyOr private_key_pem env_private_key
  let resolved_base_url :=
    if demo then DEMO_BASE_URL
    else
      match base_url with
      | some u => if u = "" then DEFAULT_BASE_URL else u
      | none => DEFAULT_BASE_URL
  let loaded_key :=
    match resolved_pem with
    | some p => if p = "" then none else some p
    | none => none
  ⟨resolved_api_key, resolved_pem, resolved_base_url, loaded_key⟩

/-- The message string built in `_get_auth_headers`:
`f"{timestamp}{method}{path}"`. -/
def signedMessage (timestamp method path : String) : String :=
  timestamp ++ method ++ path

/-- `KalshiClient._get_auth_headers(method, path)`. Raises `ValueError`
when `self.api_key` or `self._private_key` is falsy; otherwise reads the
clock once, signs `signedMessage`, and returns the four headers. -/
def getAuthHeaders (cfg : ClientConfig) (sign b64encode : String → String)
    (now_ms : Nat) (method path : String) :
    Except ClientError (List (String × String)) :=
  if !pyTruthyOptStr cfg.api_key || cfg.private_key.isNone then
    Except.error (ClientError.authError
      "API key and private key required for authenticated requests")
  else
    let timestamp := toString now_ms
    let message := signedMessage timestamp method path
    let signature := sign message
    Except.ok
      [("KALSHI-ACCESS-KEY", cfg.api_key.getD ""),
       ("KALSHI-ACCESS-SIGNATURE", b64encode signature),
       ("KALSHI-ACCESS-TIMESTAMP", timestamp),
       ("Content-Type", "application/json")]

/-- `requests.Response.raise_for_status()` raises exactly for status codes
in [400, 600). -/
def raisesForStatus (status : Nat) : Bool :=
  decide (400 ≤ status ∧ status < 600)

/-- `KalshiClient._request(method, path, params, json_data, authenticated)`.
Returns the call result together with the list of requests handed to the
transport (empty when header construction raised first, a singleton
otherwise — the code never retries). -/
def kalshiRequest (cfg : ClientConfig) (sign b64encode : String → String)
    (now_ms : Nat) (transport : HttpRequest → HttpResponse)
    (method path : String) (params : Option (List (String × Json)))
    (json_data : Option Json) (authenticated : Bool) :
    Except ClientError Json × List HttpRequest :=
  let url := cfg.base_url ++ path
  let headersE :=
    if authenticated then getAuthHeaders cfg sign b64encode now_ms method path
    else Except.ok [("Content-Type", "application/json")]
  match headersE with
  | Except.error e => (Except.error e, [])
  | Except.ok headers =>
    let req : HttpRequest := ⟨method, url, headers, params, json_data⟩
    let resp := transport req
    let result :=
      if raisesForStatus resp.status then
        Except.error (ClientError.apiError resp.status resp.text)
      else
        match resp.json with
        | some j => Except.ok j
        | none => Except.error (ClientError.formatError resp.text)
    (result, [req])

/-- `result.get(key, default)` applied to the outcome of `_request`:
errors propagate; on success the named envelope field is unwrapped,
defaulting when absent. -/
def unwrapField (result : Except ClientError Json) (key : String)
    (default : Json) : Except ClientError Json :=
  match result with
  | Except.error e => Except.error e
  | Except.ok j =>
    match dictGet j key default with
    | some v => Except.ok v
    | none => Except.error ClientError.attributeError

/-- `params["cursor"] = cursor`-style conditional insertion guarded by
`if value:` on an `Optional[str]`. -/
def addOptStrParam (params : List (String × Json)) (key : String) :
    Option String → List (String × Json)
  | some s => if s = "" then params else params ++ [(key, Json.str s)]
  | none => params

/-- `params["depth"] = depth`-style conditional insertion guarded by
`if value:` on an `Optional[int]` (0 is falsy). -/
def addOptIntParam (params : List (String × Json)) (key : String) :
    Option Int → List (String × Json)
  | some d => if d = 0 then params else params ++ [(key, Json.num d)]
  | none => params

/-- `KalshiClient.get_markets(limit, status, cursor, event_ticker)`
(Python defaults: limit=100, status="open", cursor=None,
event_ticker=None). -/
def get_markets (cfg : ClientConfig) (sign b64encode : String → String)
    (now_ms : Nat) (transport : HttpRequest → HttpResponse)
    (limit : Int) (status : String) (cursor event_ticker : Option String) :
    Except ClientError Json × List HttpRequest :=
  let params := [("limit", Json.num limit), ("status", Json.str status)]
  let params := addOptStrParam params "cursor" cursor
  let params := addOptStrParam params "event_ticker" event_ticker
  let r := kalshiRequest cfg sign b64encode now_ms transport
    "GET" "/markets" (some params) none false
  (unwrapField r.1 "markets" (Json.arr []), r.2)

/-- `KalshiClient.get_market(ticker)`. -/
def get_market (cfg : ClientConfig) (sign b64encode : String → String)
    (now_ms : Nat) (transport : HttpRequest → HttpResponse)
    (ticker : String) : Except ClientError Json × List HttpRequest :=
  let r := kalshiRequest cfg sign b64encode now_ms transport
    "GET" ("/markets/" ++ ticker) none none false
  (unwrapField r.1 "market" (Json.obj []), r.2)

/-- `KalshiClient.get_orderbook(ticker, depth)` (Python default
depth=None). -/
def get_orderbook (cfg : ClientConfig) (sign b64encode : String → String)
    (now_ms : Nat) (transport : HttpRequest → HttpResponse)
    (ticker : String) (depth : Option Int) :
    Except ClientError Json × List HttpRequest :=
  let params := addOptIntParam [] "depth" depth
  let r := kalshiRequest cfg sign b64encode now_ms transport
    "GET" ("/markets/" ++ ticker ++ "/orderbook") (some params) none false
  (unwrapField r.1 "orderbook" (Json.obj []), r.2)

/-- `KalshiClient.get_trades(ticker, limit, cursor)` (Python defaults:
limit=100, cursor=None). -/
def get_trades (cfg : ClientConfig) (sign b64encode : String → String)
    (now_ms : Nat) (transport : HttpRequest → HttpResponse)
    (ticker : String) (limit : Int) (cursor : Option String) :
    Except ClientError Json × List HttpRequest :=
  let params := addOptStrParam [("limit", Json.num limit)] "cursor" cursor
  let r := kalshiRequest cfg sign b64encode now_ms transport
    "GET" ("/markets/" ++ ticker ++ "/trades") (some params) none false
  (unwrapField r.1 "trades" (Json.arr []), r.2)

/-- `KalshiClient.get_events(limit, status, cursor)` (Python defaults:
limit=100, status="open", cursor=None). -/
def get_events (cfg : ClientConfig) (sign b64encode : String → String)
    (now_ms : Nat) (transport : HttpRequest → HttpResponse)
    (limit : Int) (status : String) (cursor : Option String) :
    Except ClientError Json × List HttpRequest :=
  let params :=
    addOptStrParam [("limit", Json.num limit), ("status", Json.str status)]
      "cursor" cursor
  let r := kalshiRequest cfg sign b64encode now_ms transport
    "GET" "/events" (some params) none false
  (unwrapField r.1 "events" (Json.arr []), r.2)

/-- `KalshiClient.get_event(event_ticker)`. -/
def get_event (cfg : ClientConfig) (sign b64encode : String → String)
    (now_ms : Nat) (transport : HttpRequest → HttpResponse)
    (event_ticker : String) : Except ClientError Json × List HttpRequest :=
  let r := kalshiRequest cfg sign b64encode now_ms transport
    "GET" ("/events/" ++ event_ticker) none none false
  (unwrapField r.1 "event" (Json.obj []), r.2)

/-- `KalshiClient.get_balance()` — authenticated; returns the whole
envelope, no unwrapping. -/
def get_balance (cfg : ClientConfig) (sign b64encode : String → String)
    (now_ms : Nat) (transport : HttpRequest → HttpResponse) :
    Except ClientError Json × List HttpRequest :=
  kalshiRequest cfg sign b64encode now_ms transport
    "GET" "/portfolio/balance" none none true

/-- `KalshiClient.get_positions(ticker, settlement_status)` (Python
defaults: ticker=None, settlement_status="unsettled") — authenticated. -/
def get_positions (cfg : ClientConfig) (sign b64encode : String → String)
    (now_ms : Nat) (transport : HttpRequest → HttpResponse)
    (ticker : Option String) (settlement_status : String) :
    Except ClientError Json × List HttpRequest :=
  let params :=
    addOptStrParam [("settlement_status", Json.str settlement_status)]
      "ticker" ticker
  let r := kalshiRequest cfg sign b64encode now_ms transport
    "GET" "/portfolio/positions" (some params) none true
  (unwrapField r.1 "market_positions" (Json.arr []), r.2)

/-- `KalshiClient.get_orders(ticker, status)` (Python defaults:
ticker=None, status="resting") — authenticated. -/
def get_orders (cfg : ClientConfig) (sign b64encode : String → String)
    (now_ms : Nat) (transport : HttpRequest → HttpResponse)
    (ticker : Option String) (status : String) :
    Except ClientError Json × List HttpRequest :=
  let params := addOptStrParam [("status", Json.str status)] "ticker" ticker
  let r := kalshiRequest cfg sign b64encode now_ms transport
    "GET" "/portfolio/orders" (some params) none true
  (unwrapField r.1 "orders" (Json.arr []), r.2)

/-- The request body built by `KalshiClient.create_order`: base payload
plus, for limit orders only, the side-specific price key. -/
def createOrderPayload (ticker side action : String) (count price : Int)
    (order_type : String) : Json :=
  Json.obj
    ([("ticker", Json.str ticker), ("side", Json.str side),
      ("action", Json.str action), ("type", Json.str order_type),
      ("count", Json.num count)] ++
     (if order_type = "limit" then
        (if side = "yes" then [("yes_price", Json.num price)]
         else [("no_price", Json.num price)])
      else []))

/-- `KalshiClient.create_order(ticker, side, action, count, price,
order_type)` (Python default order_type="limit") — authenticated. -/
def create_order (cfg : ClientConfig) (sign b64encode : String → String)
    (now_ms : Nat) (transport : HttpRequest → HttpResponse)
    (ticker side action : String) (count price : Int)
    (order_type : String) : Except ClientError Json × List HttpRequest :=
  let payload := createOrderPayload ticker side action count price order_type
  let r := kalshiRequest cfg sign b64encode now_ms transport
    "POST" "/portfolio/orders" none (some payload) true
  (unwrapField r.1 "order" (Json.obj []), r.2)

/-- `KalshiClient.cancel_order(order_id)` — authenticated. -/
def cancel_order (cfg : ClientConfig) (sign b64encode : String → String)
    (now_ms : Nat) (transport : HttpRequest → HttpResponse)
    (order_id : String) : Except ClientError Json × List HttpRequest :=
  let r := kalshiRequest cfg sign b64encode now_ms transport
    "DELETE" ("/portfolio/orders/" ++ order_id) none none true
  (unwrapField r.1 "order" (Json.obj []), r.2)

/-- C1: for every method, path and timestamp, the message signed by the
signer is the exact concatenation `str(timestamp) + method + path` with no
delimiter; the headers of an authenticated request are built from the
resource path alone, for any query-parameter mapping and body; and the
concrete vector timestamp "1700000000000", method "GET", path
"/portfolio/balance" yields "1700000000000GET/portfolio/balance". -/
theorem signed_message_is_exact_concatenation
    (t m p : String) (k pk burl : String) (hk : k ≠ "")
    (sign b64encode : String → String) (now_ms : Nat)
    (transport : HttpRequest → HttpResponse)
    (ps : Option (List (String × Json))) (body : Option Json) :
    signedMessage t m p = t ++ m ++ p ∧
    signedMessage "1700000000000" "GET" "/portfolio/balance" =
      "1700000000000GET/portfolio/balance" ∧
    (kalshiRequest ⟨some k, some pk, burl, some pk⟩ sign b64encode now_ms
        transport m p ps body true).2.map HttpRequest.headers =
      [[("KALSHI-ACCESS-KEY", k),
        ("KALSHI-ACCESS-SIGNATURE",
          b64encode (sign (signedMessage (toString now_ms) m p))),
        ("KALSHI-ACCESS-TIMESTAMP", toString now_ms),
        ("Content-Type", "application/json")]] := by
  refine ⟨rfl, by decide, ?_⟩
  simp [kalshiRequest, getAuthHeaders, pyTruthyOptStr, hk]

/-- Witness for C1 at concrete inputs. -/
theorem signed_message_is_exact_concatenation_witness :
    ("K" : String) ≠ "" ∧
    (signedMessage "1700000000000" "GET" "/portfolio/balance" =
        "1700000000000" ++ "GET" ++ "/portfolio/balance" ∧
     signedMessage "1700000000000" "GET" "/portfolio/balance" =
        "1700000000000GET/portfolio/balance" ∧
     (kalshiRequest ⟨some "K", some "PEM", DEFAULT_BASE_URL, some "PEM"⟩
         (fun s => s ++ "!") (fun s => s) 1700000000000
         (fun _ => ⟨200, "\x7b\x7d", some (Json.obj [])⟩)
         "GET" "/portfolio/balance" none none true).2.map HttpRequest.headers =
       [[("KALSHI-ACCESS-KEY", "K"),
         ("KALSHI-ACCESS-SIGNATURE",
           (fun s => s)
             ((fun s => s ++ "!")
               (signedMessage (toString (1700000000000 : Nat)) "GET"
                 "/portfolio/balance"))),
         ("KALSHI-ACCESS-TIMESTAMP", toString (1700000000000 : Nat)),
         ("Content-Type", "application/json")]]) :=
  ⟨by decide,
   signed_message_is_exact_concatenation "1700000000000" "GET"
     "/portfolio/balance" "K" "PEM" DEFAULT_BASE_URL (by decide)
     (fun s => s ++ "!") (fun s => s) 1700000000000
     (fun _ => ⟨200, "\x7b\x7d", some (Json.obj [])⟩) none none⟩

/-- C2: for limit orders the price goes under `yes_price` when side is
"yes" (and no `no_price` key is present), under `no_price` for any other
side (and no `yes_price` key); for market orders neither `yes_price` nor
`no_price` is present for every side — "yes" included — regardless of the
supplied price; and the body create_order hands to the transport is
exactly this payload. -/
theorem create_order_price_key_policy
    (ticker side anySide action : String) (count price : Int)
    (order_type : String) (hside : side ≠ "yes") (k pk burl : String)
    (hk : k ≠ "") (sign b64encode : String → String) (now_ms : Nat)
    (transport : HttpRequest → HttpResponse) :
    jsonObjLookup (createOrderPayload ticker "yes" action count price "limit")
        "yes_price" = some (some (Json.num price)) ∧
    jsonObjLookup (createOrderPayload ticker "yes" action count price "limit")
        "no_price" = some none ∧
    jsonObjLookup (createOrderPayload ticker side action count price "limit")
        "no_price" = some (some (Json.num price)) ∧
    jsonObjLookup (createOrderPayload ticker side action count price "limit")
        "yes_price" = some none ∧
    jsonObjLookup (createOrderPayload ticker anySide action count price
        "market") "yes_price" = some none ∧
    jsonObjLookup (createOrderPayload ticker anySide action count price
        "market") "no_price" = some none ∧
    (create_order ⟨some k, some pk, burl, some pk⟩ sign b64encode now_ms
        transport ticker side action count price order_type).2.map
        HttpRequest.json_data =
      [some (createOrderPayload ticker side action count price order_type)] := by
  refine ⟨?_, ?_, ?_, ?_, ?_, ?_, ?_⟩
  · simp [createOrderPayload, jsonObjLookup, List.lookup]
  · simp [createOrderPayload, jsonObjLookup, List.lookup]
  · simp [createOrderPayload, jsonObjLookup, List.lookup, hside]
  · simp [createOrderPayload, jsonObjLookup, List.lookup, hside]
  · simp [createOrderPayload, jsonObjLookup, List.lookup]
  · simp [createOrderPayload, jsonObjLookup, List.lookup]
  · simp [create_order, kalshiRequest, getAuthHeaders, pyTruthyOptStr, hk]

/-- Witness for C2 at concrete inputs, with the market-order conjuncts
instantiated at side "yes". -/
theorem create_order_price_key_policy_witness :
    ("no" : String) ≠ "yes" ∧ ("K" : String) ≠ "" ∧
    (jsonObjLookup (createOrderPayload "X" "yes" "buy" 5 42 "limit")
        "yes_price" = some (some (Json.num 42)) ∧
     jsonObjLookup (createOrderPayload "X" "yes" "buy" 5 42 "limit")
        "no_price" = some none ∧
     jsonObjLookup (createOrderPayload "X" "no" "buy" 5 42 "limit")
        "no_price" = some (some (Json.num 42)) ∧
     jsonObjLookup (createOrderPayload "X" "no" "buy" 5 42 "limit")
        "yes_price" = some none ∧
     jsonObjLookup (createOrderPayload "X" "yes" "buy" 5 42 "market")
        "yes_price" = some none ∧
     jsonObjLookup (createOrderPayload "X" "yes" "buy" 5 42 "market")
        "no_price" = some none ∧
     (create_order ⟨some "K", some "PEM", DEFAULT_BASE_URL, some "PEM"⟩
         (fun s => s) (fun s => s) 0
         (fun _ => ⟨200, "\x7b\x7d", some (Json.obj [])⟩)
         "X" "no" "buy" 5 42 "market").2.map HttpRequest.json_data =
       [some (createOrderPayload "X" "no" "buy" 5 42 "market")]) :=
  ⟨by decide, by decide,
   create_order_price_key_policy "X" "no" "yes" "buy" 5 42 "market"
     (by decide) "K" "PEM" DEFAULT_BASE_URL (by decide) (fun s => s)
     (fun s => s) 0 (fun _ => ⟨200, "\x7b\x7d", some (Json.obj [])⟩)⟩

/-- C3: each authenticated method (get_balance, get_positions, get_orders,
create_order, cancel_order) with a falsy key identifier or no loaded
private key returns the authentication configuration error and hands zero
requests to the transport; the outcome is a constant not depending on the
sign, base64 or transport functions, so no signing and no network call
happens. -/
theorem authenticated_methods_fail_fast_without_credentials
    (cfg : ClientConfig)
    (hc : pyTruthyOptStr cfg.api_key = false ∨ cfg.private_key = none)
    (sign b64encode : String → String) (now_ms : Nat)
    (transport : HttpRequest → HttpResponse)
    (side action settlement_status ostatus order_type : String)
    (ticker : Option String) (tk order_id : String) (count price : Int) :
    get_balance cfg sign b64encode now_ms transport =
      (Except.error (ClientError.authError
        "API key and private key required for authenticated requests"), []) ∧
    get_positions cfg sign b64encode now_ms transport ticker
        settlement_status =
      (Except.error (ClientError.authError
        "API key and private key required for authenticated requests"), []) ∧
    get_orders cfg sign b64encode now_ms transport ticker ostatus =
      (Except.error (ClientError.authError
        "API key and private key required for authenticated requests"), []) ∧
    create_order cfg sign b64encode now_ms transport tk side action count
        price order_type =
      (Except.error (ClientError.authError
        "API key and private key required for authenticated requests"), []) ∧
    cancel_order cfg sign b64encode now_ms transport order_id =
      (Except.error (ClientError.authError
        "API key and private key required for authenticated requests"), []) := by
  have hcond : (!pyTruthyOptStr cfg.api_key || cfg.private_key.isNone) = true := by
    rcases hc with h | h <;> simp [h]
  refine ⟨?_, ?_, ?_, ?_, ?_⟩ <;>
    simp [get_balance, get_positions, get_orders, create_order, cancel_order,
      kalshiRequest, getAuthHeaders, hcond, unwrapField]

/-- Witness for C3 with an unconfigured client. -/
theorem authenticated_methods_fail_fast_without_credentials_witness :
    (pyTruthyOptStr (ClientConfig.mk none none DEFAULT_BASE_URL none).api_key
        = false ∨
     (ClientConfig.mk none none DEFAULT_BASE_URL none).private_key = none) ∧
    (get_balance ⟨none, none, DEFAULT_BASE_URL, none⟩ (fun s => s)
        (fun s => s) 0 (fun _ => ⟨200, "\x7b\x7d", some (Json.obj [])⟩) =
      (Except.error (ClientError.authError
        "API key and private key required for authenticated requests"), []) ∧
     get_positions ⟨none, none, DEFAULT_BASE_URL, none⟩ (fun s => s)
        (fun s => s) 0 (fun _ => ⟨200, "\x7b\x7d", some (Json.obj [])⟩) none
        "unsettled" =
      (Except.error (ClientError.authError
        "API key and private key required for authenticated requests"), []) ∧
     get_orders ⟨none, none, DEFAULT_BASE_URL, none⟩ (fun s => s)
        (fun s => s) 0 (fun _ => ⟨200, "\x7b\x7d", some (Json.obj [])⟩) none
        "resting" =
      (Except.error (ClientError.authError
        "API key and private key required for authenticated requests"), []) ∧
     create_order ⟨none, none, DEFAULT_BASE_URL, none⟩ (fun s => s)
        (fun s => s) 0 (fun _ => ⟨200, "\x7b\x7d", some (Json.obj [])⟩) "X" "yes"
        "buy" 5 42 "limit" =
      (Except.error (ClientError.authError
        "API key and private key required for authenticated requests"), []) ∧
     cancel_order ⟨none, none, DEFAULT_BASE_URL, none⟩ (fun s => s)
        (fun s => s) 0 (fun _ => ⟨200, "\x7b\x7d", some (Json.obj [])⟩) "OID" =
      (Except.error (ClientError.authError
        "API key and private key required for authenticated requests"), [])) :=
  ⟨Or.inl rfl,
   authenticated_methods_fail_fast_without_credentials
     ⟨none, none, DEFAULT_BASE_URL, none⟩ (Or.inl rfl) (fun s => s)
     (fun s => s) 0 (fun _ => ⟨200, "\x7b\x7d", some (Json.obj [])⟩) "yes" "buy"
     "unsettled" "resting" "limit" none "X" "OID" 5 42⟩

/-- C4 counterexample: HTTP 304 is a non-2xx status, yet the dispatch does
not raise — get_market returns the unwrapped value to the caller, because
`raise_for_status` only raises for statuses in [400, 600). -/
theorem non_2xx_no_error_counterexample :
    ¬ (200 ≤ 304 ∧ 304 < 300) ∧
    (get_market ⟨none, none, DEFAULT_BASE_URL, none⟩ (fun s => s)
        (fun s => s) 0
        (fun _ => ⟨304, "", some (Json.obj [("market", Json.str "cached")])⟩)
        "BOGUS").1 = Except.ok (Json.str "cached") := by
  exact ⟨by decide, rfl⟩

/-- C4 amended: every response whose status lies in [400, 600) — all
client and server error statuses, which is what `raise_for_status`
treats as errors, rather than every non-2xx status — makes the dispatch,
unauthenticated and authenticated alike, return an ApiRequestError
carrying that status code and the raw response body, hand exactly one
request to the transport (no retry), and never return a value; in
particular an HTTP 404 with body \x7b"error":"not_found"\x7d makes
get_market("BOGUS") fail with status 404 and that body, and the
authenticated get_balance fails the same way on any such status. -/
theorem http_4xx_5xx_raises_api_error
    (status : Nat) (h4 : 400 ≤ status) (h6 : status < 600)
    (cfg : ClientConfig) (k pk burl : String) (hk : k ≠ "")
    (sign b64encode : String → String) (now_ms : Nat)
    (text : String) (jsonOpt : Option Json) (method path : String)
    (ps : Option (List (String × Json))) (body : Option Json) :
    kalshiRequest cfg sign b64encode now_ms (fun _ => ⟨status, text, jsonOpt⟩)
        method path ps body false =
      (Except.error (ClientError.apiError status text),
       [⟨method, cfg.base_url ++ path,
         [("Content-Type", "application/json")], ps, body⟩]) ∧
    kalshiRequest ⟨some k, some pk, burl, some pk⟩ sign b64encode now_ms
        (fun _ => ⟨status, text, jsonOpt⟩) method path ps body true =
      (Except.error (ClientError.apiError status text),
       [⟨method, burl ++ path,
         [("KALSHI-ACCESS-KEY", k),
          ("KALSHI-ACCESS-SIGNATURE",
            b64encode (sign (signedMessage (toString now_ms) method path))),
          ("KALSHI-ACCESS-TIMESTAMP", toString now_ms),
          ("Content-Type", "application/json")], ps, body⟩]) ∧
    get_market cfg sign b64encode now_ms
        (fun _ => ⟨404, "\x7b\"error\":\"not_found\"\x7d",
          some (Json.obj [("error", Json.str "not_found")])⟩) "BOGUS" =
      (Except.error
        (ClientError.apiError 404 "\x7b\"error\":\"not_found\"\x7d"),
       [⟨"GET", cfg.base_url ++ "/markets/BOGUS",
         [("Content-Type", "application/json")], none, none⟩]) ∧
    get_balance ⟨some k, some pk, burl, some pk⟩ sign b64encode now_ms
        (fun _ => ⟨status, text, jsonOpt⟩) =
      (Except.error (ClientError.apiError status text),
       [⟨"GET", burl ++ "/portfolio/balance",
         [("KALSHI-ACCESS-KEY", k),
          ("KALSHI-ACCESS-SIGNATURE",
            b64encode (sign (signedMessage (toString now_ms) "GET"
              "/portfolio/balance"))),
          ("KALSHI-ACCESS-TIMESTAMP", toString now_ms),
          ("Content-Type", "application/json")], none, none⟩]) := by
  have hs : raisesForStatus status = true := by
    simp [raisesForStatus]
    omega
  refine ⟨?_, ?_, ?_, ?_⟩
  · simp [kalshiRequest, hs]
  · simp [kalshiRequest, getAuthHeaders, pyTruthyOptStr, hk, hs]
  · simp [get_market, kalshiRequest, unwrapField, raisesForStatus]
  · simp [get_balance, kalshiRequest, getAuthHeaders, pyTruthyOptStr, hk, hs]

/-- Witness for C4's amended theorem at status 404, covering both the
unauthenticated and the authenticated dispatch. -/
theorem http_4xx_5xx_raises_api_error_witness :
    400 ≤ 404 ∧ 404 < 600 ∧ ("K" : String) ≠ "" ∧
    (kalshiRequest ⟨none, none, DEFAULT_BASE_URL, none⟩ (fun s => s ++ "!")
        (fun s => "b64:" ++ s) 0 (fun _ => ⟨404, "gone", none⟩)
        "GET" "/markets" (some []) none false =
      (Except.error (ClientError.apiError 404 "gone"),
       [⟨"GET",
         (ClientConfig.mk none none DEFAULT_BASE_URL none).base_url ++
           "/markets",
         [("Content-Type", "application/json")], some [], none⟩]) ∧
     kalshiRequest ⟨some "K", some "PEM", DEFAULT_BASE_URL, some "PEM"⟩
        (fun s => s ++ "!") (fun s => "b64:" ++ s) 0
        (fun _ => ⟨404, "gone", none⟩) "GET" "/markets" (some []) none
        true =
      (Except.error (ClientError.apiError 404 "gone"),
       [⟨"GET", DEFAULT_BASE_URL ++ "/markets",
         [("KALSHI-ACCESS-KEY", "K"),
          ("KALSHI-ACCESS-SIGNATURE",
            (fun s => "b64:" ++ s)
              ((fun s => s ++ "!")
                (signedMessage (toString (0 : Nat)) "GET" "/markets"))),
          ("KALSHI-ACCESS-TIMESTAMP", toString (0 : Nat)),
          ("Content-Type", "application/json")], some [], none⟩]) ∧
     get_market ⟨none, none, DEFAULT_BASE_URL, none⟩ (fun s => s ++ "!")
        (fun s => "b64:" ++ s) 0
        (fun _ => ⟨404, "\x7b\"error\":\"not_found\"\x7d",
          some (Json.obj [("error", Json.str "not_found")])⟩) "BOGUS" =
      (Except.error
        (ClientError.apiError 404 "\x7b\"error\":\"not_found\"\x7d"),
       [⟨"GET",
         (ClientConfig.mk none none DEFAULT_BASE_URL none).base_url ++
           "/markets/BOGUS",
         [("Content-Type", "application/json")], none, none⟩]) ∧
     get_balance ⟨some "K", some "PEM", DEFAULT_BASE_URL, some "PEM"⟩
        (fun s => s ++ "!") (fun s => "b64:" ++ s) 0
        (fun _ => ⟨404, "gone", none⟩) =
      (Except.error (ClientError.apiError 404 "gone"),
       [⟨"GET", DEFAULT_BASE_URL ++ "/portfolio/balance",
         [("KALSHI-ACCESS-KEY", "K"),
          ("KALSHI-ACCESS-SIGNATURE",
            (fun s => "b64:" ++ s)
              ((fun s => s ++ "!")
                (signedMessage (toString (0 : Nat)) "GET"
                  "/portfolio/balance"))),
          ("KALSHI-ACCESS-TIMESTAMP", toString (0 : Nat)),
          ("Content-Type", "application/json")], none, none⟩])) :=
  ⟨by decide, by decide, by decide,
   http_4xx_5xx_raises_api_error 404 (by decide) (by decide)
     ⟨none, none, DEFAULT_BASE_URL, none⟩ "K" "PEM" DEFAULT_BASE_URL
     (by decide) (fun s => s ++ "!") (fun s => "b64:" ++ s) 0
     "gone" none "GET" "/markets" (some []) none⟩

/-- C5: an optional parameter the caller does not supply is entirely
absent from the outgoing query mapping of every endpoint method; in
particular get_markets with limit and status but no cursor/event_ticker
issues a GET to /markets whose query mapping is exactly the limit/status
pairs, with no cursor or event_ticker key. -/
theorem unsupplied_optional_params_omitted
    (cfg : ClientConfig) (sign b64encode : String → String) (now_ms : Nat)
    (transport : HttpRequest → HttpResponse) (limit : Int)
    (status ticker settlement_status ostatus : String)
    (k pk burl : String) (hk : k ≠ "") :
    (get_markets cfg sign b64encode now_ms transport limit status none
        none).2.map (fun r => (r.method, r.url, r.params)) =
      [("GET", cfg.base_url ++ "/markets",
        some [("limit", Json.num limit), ("status", Json.str status)])] ∧
    (get_markets cfg sign b64encode now_ms transport 10 "open" none
        none).2.map HttpRequest.params =
      [some [("limit", Json.num 10), ("status", Json.str "open")]] ∧
    (get_orderbook cfg sign b64encode now_ms transport ticker none).2.map
        HttpRequest.params = [some []] ∧
    (get_trades cfg sign b64encode now_ms transport ticker limit none).2.map
        HttpRequest.params = [some [("limit", Json.num limit)]] ∧
    (get_events cfg sign b64encode now_ms transport limit status none).2.map
        HttpRequest.params =
      [some [("limit", Json.num limit), ("status", Json.str status)]] ∧
    (get_positions ⟨some k, some pk, burl, some pk⟩ sign b64encode now_ms
        transport none settlement_status).2.map HttpRequest.params =
      [some [("settlement_status", Json.str settlement_status)]] ∧
    (get_orders ⟨some k, some pk, burl, some pk⟩ sign b64encode now_ms
        transport none ostatus).2.map HttpRequest.params =
      [some [("status", Json.str ostatus)]] := by
  refine ⟨?_, ?_, ?_, ?_, ?_, ?_, ?_⟩ <;>
    simp [get_markets, get_orderbook, get_trades, get_events, get_positions,
      get_orders, kalshiRequest, getAuthHeaders, pyTruthyOptStr,
      addOptStrParam, addOptIntParam, hk]

/-- Witness for C5 at concrete inputs. -/
theorem unsupplied_optional_params_omitted_witness :
    ("K" : String) ≠ "" ∧
    ((get_markets ⟨none, none, DEFAULT_BASE_URL, none⟩ (fun s => s)
        (fun s => s) 0 (fun _ => ⟨200, "\x7b\x7d", some (Json.obj [])⟩)
        10 "open" none none).2.map (fun r => (r.method, r.url, r.params)) =
      [("GET",
        (ClientConfig.mk none none DEFAULT_BASE_URL none).base_url ++
          "/markets",
        some [("limit", Json.num 10), ("status", Json.str "open")])] ∧
     (get_markets ⟨none, none, DEFAULT_BASE_URL, none⟩ (fun s => s)
        (fun s => s) 0 (fun _ => ⟨200, "\x7b\x7d", some (Json.obj [])⟩)
        10 "open" none none).2.map HttpRequest.params =
      [some [("limit", Json.num 10), ("status", Json.str "open")]] ∧
     (get_orderbook ⟨none, none, DEFAULT_BASE_URL, none⟩ (fun s => s)
        (fun s => s) 0 (fun _ => ⟨200, "\x7b\x7d", some (Json.obj [])⟩)
        "T" none).2.map HttpRequest.params = [some []] ∧
     (get_trades ⟨none, none, DEFAULT_BASE_URL, none⟩ (fun s => s)
        (fun s => s) 0 (fun _ => ⟨200, "\x7b\x7d", some (Json.obj [])⟩)
        "T" 10 none).2.map HttpRequest.params =
      [some [("limit", Json.num 10)]] ∧
     (get_events ⟨none, none, DEFAULT_BASE_URL, none⟩ (fun s => s)
        (fun s => s) 0 (fun _ => ⟨200, "\x7b\x7d", some (Json.obj [])⟩)
        10 "open" none).2.map HttpRequest.params =
      [some [("limit", Json.num 10), ("status", Json.str "open")]] ∧
     (get_positions ⟨some "K", some "PEM", DEFAULT_BASE_URL, some "PEM"⟩
        (fun s => s) (fun s => s) 0
        (fun _ => ⟨200, "\x7b\x7d", some (Json.obj [])⟩) none
        "unsettled").2.map HttpRequest.params =
      [some [("settlement_status", Json.str "unsettled")]] ∧
     (get_orders ⟨some "K", some "PEM", DEFAULT_BASE_URL, some "PEM"⟩
        (fun s => s) (fun s => s) 0
        (fun _ => ⟨200, "\x7b\x7d", some (Json.obj [])⟩) none
        "resting").2.map HttpRequest.params =
      [some [("status", Json.str "resting")]]) :=
  ⟨by decide,
   unsupplied_optional_params_omitted ⟨none, none, DEFAULT_BASE_URL, none⟩
     (fun s => s) (fun s => s) 0
     (fun _ => ⟨200, "\x7b\x7d", some (Json.obj [])⟩) 10 "open" "T"
     "unsettled" "resting" "K" "PEM" DEFAULT_BASE_URL (by decide)⟩

/-- C10: for every endpoint method with optional parameters, an optional
parameter supplied with a falsy value (integer 0 or empty string) is
omitted from the outgoing query mapping exactly as if it were unsupplied:
get_orderbook with depth 0 sends no depth key, get_markets with empty
cursor and event_ticker strings sends neither key, get_trades and
get_events with an empty cursor send no cursor key, and get_positions and
get_orders with an empty ticker send no ticker key — each call behaving
identically to the unsupplied one. -/
theorem falsy_optional_params_omitted_like_unsupplied
    (cfg : ClientConfig) (k pk burl : String) (hk : k ≠ "")
    (sign b64encode : String → String) (now_ms : Nat)
    (transport : HttpRequest → HttpResponse) (limit : Int)
    (status ticker settlement_status ostatus : String) :
    (get_orderbook cfg sign b64encode now_ms transport ticker
        (some 0)).2.map HttpRequest.params = [some []] ∧
    get_orderbook cfg sign b64encode now_ms transport ticker (some 0) =
      get_orderbook cfg sign b64encode now_ms transport ticker none ∧
    (get_markets cfg sign b64encode now_ms transport limit status
        (some "") (some "")).2.map HttpRequest.params =
      [some [("limit", Json.num limit), ("status", Json.str status)]] ∧
    get_markets cfg sign b64encode now_ms transport limit status
        (some "") (some "") =
      get_markets cfg sign b64encode now_ms transport limit status none
        none ∧
    (get_trades cfg sign b64encode now_ms transport ticker limit
        (some "")).2.map HttpRequest.params =
      [some [("limit", Json.num limit)]] ∧
    get_trades cfg sign b64encode now_ms transport ticker limit (some "") =
      get_trades cfg sign b64encode now_ms transport ticker limit none ∧
    (get_events cfg sign b64encode now_ms transport limit status
        (some "")).2.map HttpRequest.params =
      [some [("limit", Json.num limit), ("status", Json.str status)]] ∧
    get_events cfg sign b64encode now_ms transport limit status (some "") =
      get_events cfg sign b64encode now_ms transport limit status none ∧
    (get_positions ⟨some k, some pk, burl, some pk⟩ sign b64encode now_ms
        transport (some "") settlement_status).2.map HttpRequest.params =
      [some [("settlement_status", Json.str settlement_status)]] ∧
    get_positions cfg sign b64encode now_ms transport (some "")
        settlement_status =
      get_positions cfg sign b64encode now_ms transport none
        settlement_status ∧
    (get_orders ⟨some k, some pk, burl, some pk⟩ sign b64encode now_ms
        transport (some "") ostatus).2.map HttpRequest.params =
      [some [("status", Json.str ostatus)]] ∧
    get_orders cfg sign b64encode now_ms transport (some "") ostatus =
      get_orders cfg sign b64encode now_ms transport none ostatus := by
  refine ⟨?_, ?_, ?_, ?_, ?_, ?_, ?_, ?_, ?_, ?_, ?_, ?_⟩ <;>
    simp [get_orderbook, get_markets, get_trades, get_events,
      get_positions, get_orders, kalshiRequest, getAuthHeaders,
      pyTruthyOptStr, addOptStrParam, addOptIntParam, hk]

/-- Witness for C10 at concrete inputs. -/
theorem falsy_optional_params_omitted_like_unsupplied_witness :
    ("K" : String) ≠ "" ∧
    ((get_orderbook ⟨none, none, DEFAULT_BASE_URL, none⟩ (fun s => s)
        (fun s => s) 0 (fun _ => ⟨200, "\x7b\x7d", some (Json.obj [])⟩)
        "T" (some 0)).2.map HttpRequest.params = [some []] ∧
     get_orderbook ⟨none, none, DEFAULT_BASE_URL, none⟩ (fun s => s)
        (fun s => s) 0 (fun _ => ⟨200, "\x7b\x7d", some (Json.obj [])⟩)
        "T" (some 0) =
       get_orderbook ⟨none, none, DEFAULT_BASE_URL, none⟩ (fun s => s)
        (fun s => s) 0 (fun _ => ⟨200, "\x7b\x7d", some (Json.obj [])⟩)
        "T" none ∧
     (get_markets ⟨none, none, DEFAULT_BASE_URL, none⟩ (fun s => s)
        (fun s => s) 0 (fun _ => ⟨200, "\x7b\x7d", some (Json.obj [])⟩)
        10 "open" (some "") (some "")).2.map HttpRequest.params =
       [some [("limit", Json.num 10), ("status", Json.str "open")]] ∧
     get_markets ⟨none, none, DEFAULT_BASE_URL, none⟩ (fun s => s)
        (fun s => s) 0 (fun _ => ⟨200, "\x7b\x7d", some (Json.obj [])⟩)
        10 "open" (some "") (some "") =
       get_markets ⟨none, none, DEFAULT_BASE_URL, none⟩ (fun s => s)
        (fun s => s) 0 (fun _ => ⟨200, "\x7b\x7d", some (Json.obj [])⟩)
        10 "open" none none ∧
     (get_trades ⟨none, none, DEFAULT_BASE_URL, none⟩ (fun s => s)
        (fun s => s) 0 (fun _ => ⟨200, "\x7b\x7d", some (Json.obj [])⟩)
        "T" 10 (some "")).2.map HttpRequest.params =
       [some [("limit", Json.num 10)]] ∧
     get_trades ⟨none, none, DEFAULT_BASE_URL, none⟩ (fun s => s)
        (fun s => s) 0 (fun _ => ⟨200, "\x7b\x7d", some (Json.obj [])⟩)
        "T" 10 (some "") =
       get_trades ⟨none, none, DEFAULT_BASE_URL, none⟩ (fun s => s)
        (fun s => s) 0 (fun _ => ⟨200, "\x7b\x7d", some (Json.obj [])⟩)
        "T" 10 none ∧
     (get_events ⟨none, none, DEFAULT_BASE_URL, none⟩ (fun s => s)
        (fun s => s) 0 (fun _ => ⟨200, "\x7b\x7d", some (Json.obj [])⟩)
        10 "open" (some "")).2.map HttpRequest.params =
       [some [("limit", Json.num 10), ("status", Json.str "open")]] ∧
     get_events ⟨none, none, DEFAULT_BASE_URL, none⟩ (fun s => s)
        (fun s => s) 0 (fun _ => ⟨200, "\x7b\x7d", some (Json.obj [])⟩)
        10 "open" (some "") =
       get_events ⟨none, none, DEFAULT_BASE_URL, none⟩ (fun s => s)
        (fun s => s) 0 (fun _ => ⟨200, "\x7b\x7d", some (Json.obj [])⟩)
        10 "open" none ∧
     (get_positions ⟨some "K", some "PEM", DEFAULT_BASE_URL, some "PEM"⟩
        (fun s => s) (fun s => s) 0
        (fun _ => ⟨200, "\x7b\x7d", some (Json.obj [])⟩) (some "")
        "unsettled").2.map HttpRequest.params =
       [some [("settlement_status", Json.str "unsettled")]] ∧
     get_positions ⟨none, none, DEFAULT_BASE_URL, none⟩ (fun s => s)
        (fun s => s) 0 (fun _ => ⟨200, "\x7b\x7d", some (Json.obj [])⟩)
        (some "") "unsettled" =
       get_positions ⟨none, none, DEFAULT_BASE_URL, none⟩ (fun s => s)
        (fun s => s) 0 (fun _ => ⟨200, "\x7b\x7d", some (Json.obj [])⟩)
        none "unsettled" ∧
     (get_orders ⟨some "K", some "PEM", DEFAULT_BASE_URL, some "PEM"⟩
        (fun s => s) (fun s => s) 0
        (fun _ => ⟨200, "\x7b\x7d", some (Json.obj [])⟩) (some "")
        "resting").2.map HttpRequest.params =
       [some [("status", Json.str "resting")]] ∧
     get_orders ⟨none, none, DEFAULT_BASE_URL, none⟩ (fun s => s)
        (fun s => s) 0 (fun _ => ⟨200, "\x7b\x7d", some (Json.obj [])⟩)
        (some "") "resting" =
       get_orders ⟨none, none, DEFAULT_BASE_URL, none⟩ (fun s => s)
        (fun s => s) 0 (fun _ => ⟨200, "\x7b\x7d", some (Json.obj [])⟩)
        none "resting") :=
  ⟨by decide,
   falsy_optional_params_omitted_like_unsupplied
     ⟨none, none, DEFAULT_BASE_URL, none⟩ "K" "PEM" DEFAULT_BASE_URL
     (by decide) (fun s => s) (fun s => s) 0
     (fun _ => ⟨200, "\x7b\x7d", some (Json.obj [])⟩) 10 "open" "T"
     "unsettled" "resting"⟩

/-- C6: for every envelope-unwrapping endpoint method (every public method
except get_balance), when the parsed envelope object lacks the method's
named field the method returns the declared empty container — an empty
array for list endpoints, an empty object for single-resource endpoints —
and raises no error. -/
theorem missing_envelope_field_defaults_to_empty
    (fields : List (String × Json)) (k pk burl : String) (hk : k ≠ "")
    (sign b64encode : String → String) (now_ms : Nat)
    (limit count price : Int)
    (status ticker settlement_status ostatus order_id : String)
    (h1 : fields.lookup "markets" = none)
    (h2 : fields.lookup "market" = none)
    (h3 : fields.lookup "orderbook" = none)
    (h4 : fields.lookup "trades" = none)
    (h5 : fields.lookup "events" = none)
    (h6 : fields.lookup "event" = none)
    (h7 : fields.lookup "market_positions" = none)
    (h8 : fields.lookup "orders" = none)
    (h9 : fields.lookup "order" = none) :
    (get_markets ⟨some k, some pk, burl, some pk⟩ sign b64encode now_ms
        (fun _ => ⟨200, "", some (Json.obj fields)⟩) limit status none
        none).1 = Except.ok (Json.arr []) ∧
    (get_market ⟨some k, some pk, burl, some pk⟩ sign b64encode now_ms
        (fun _ => ⟨200, "", some (Json.obj fields)⟩) ticker).1 =
      Except.ok (Json.obj []) ∧
    (get_orderbook ⟨some k, some pk, burl, some pk⟩ sign b64encode now_ms
        (fun _ => ⟨200, "", some (Json.obj fields)⟩) ticker none).1 =
      Except.ok (Json.obj []) ∧
    (get_trades ⟨some k, some pk, burl, some pk⟩ sign b64encode now_ms
        (fun _ => ⟨200, "", some (Json.obj fields)⟩) ticker limit none).1 =
      Except.ok (Json.arr []) ∧
    (get_events ⟨some k, some pk, burl, some pk⟩ sign b64encode now_ms
        (fun _ => ⟨200, "", some (Json.obj fields)⟩) limit status none).1 =
      Except.ok (Json.arr []) ∧
    (get_event ⟨some k, some pk, burl, some pk⟩ sign b64encode now_ms
        (fun _ => ⟨200, "", some (Json.obj fields)⟩) ticker).1 =
      Except.ok (Json.obj []) ∧
    (get_positions ⟨some k, some pk, burl, some pk⟩ sign b64encode now_ms
        (fun _ => ⟨200, "", some (Json.obj fields)⟩) none
        settlement_status).1 = Except.ok (Json.arr []) ∧
    (get_orders ⟨some k, some pk, burl, some pk⟩ sign b64encode now_ms
        (fun _ => ⟨200, "", some (Json.obj fields)⟩) none ostatus).1 =
      Except.ok (Json.arr []) ∧
    (create_order ⟨some k, some pk, burl, some pk⟩ sign b64encode now_ms
        (fun _ => ⟨200, "", some (Json.obj fields)⟩) ticker "yes" "buy"
        count price "limit").1 = Except.ok (Json.obj []) ∧
    (cancel_order ⟨some k, some pk, burl, some pk⟩ sign b64encode now_ms
        (fun _ => ⟨200, "", some (Json.obj fields)⟩) order_id).1 =
      Except.ok (Json.obj []) := by
  refine ⟨?_, ?_, ?_, ?_, ?_, ?_, ?_, ?_, ?_, ?_⟩ <;>
    simp [get_markets, get_market, get_orderbook, get_trades, get_events,
      get_event, get_positions, get_orders, create_order, cancel_order,
      kalshiRequest, getAuthHeaders, pyTruthyOptStr, unwrapField, dictGet,
      raisesForStatus, addOptStrParam, addOptIntParam, hk, h1, h2, h3, h4,
      h5, h6, h7, h8, h9]

/-- Witness for C6 with the empty envelope object. -/
theorem missing_envelope_field_defaults_to_empty_witness :
    ("K" : String) ≠ "" ∧
    (([] : List (String × Json)).lookup "markets" = none) ∧
    ((get_markets ⟨some "K", some "PEM", DEFAULT_BASE_URL, some "PEM"⟩
        (fun s => s) (fun s => s) 0
        (fun _ => ⟨200, "", some (Json.obj [])⟩) 10 "open" none none).1 =
      Except.ok (Json.arr []) ∧
     (get_market ⟨some "K", some "PEM", DEFAULT_BASE_URL, some "PEM"⟩
        (fun s => s) (fun s => s) 0
        (fun _ => ⟨200, "", some (Json.obj [])⟩) "T").1 =
      Except.ok (Json.obj []) ∧
     (get_orderbook ⟨some "K", some "PEM", DEFAULT_BASE_URL, some "PEM"⟩
        (fun s => s) (fun s => s) 0
        (fun _ => ⟨200, "", some (Json.obj [])⟩) "T" none).1 =
      Except.ok (Json.obj []) ∧
     (get_trades ⟨some "K", some "PEM", DEFAULT_BASE_URL, some "PEM"⟩
        (fun s => s) (fun s => s) 0
        (fun _ => ⟨200, "", some (Json.obj [])⟩) "T" 10 none).1 =
      Except.ok (Json.arr []) ∧
     (get_events ⟨some "K", some "PEM", DEFAULT_BASE_URL, some "PEM"⟩
        (fun s => s) (fun s => s) 0
        (fun _ => ⟨200, "", some (Json.obj [])⟩) 10 "open" none).1 =
      Except.ok (Json.arr []) ∧
     (get_event ⟨some "K", some "PEM", DEFAULT_BASE_URL, some "PEM"⟩
        (fun s => s) (fun s => s) 0
        (fun _ => ⟨200, "", some (Json.obj [])⟩) "T").1 =
      Except.ok (Json.obj []) ∧
     (get_positions ⟨some "K", some "PEM", DEFAULT_BASE_URL, some "PEM"⟩
        (fun s => s) (fun s => s) 0
        (fun _ => ⟨200, "", some (Json.obj [])⟩) none "unsettled").1 =
      Except.ok (Json.arr []) ∧
     (get_orders ⟨some "K", some "PEM", DEFAULT_BASE_URL, some "PEM"⟩
        (fun s => s) (fun s => s) 0
        (fun _ => ⟨200, "", some (Json.obj [])⟩) none "resting").1 =
      Except.ok (Json.arr []) ∧
     (create_order ⟨some "K", some "PEM", DEFAULT_BASE_URL, some "PEM"⟩
        (fun s => s) (fun s => s) 0
        (fun _ => ⟨200, "", some (Json.obj [])⟩) "T" "yes" "buy" 5 42
        "limit").1 = Except.ok (Json.obj []) ∧
     (cancel_order ⟨some "K", some "PEM", DEFAULT_BASE_URL, some "PEM"⟩
        (fun s => s) (fun s => s) 0
        (fun _ => ⟨200, "", some (Json.obj [])⟩) "OID").1 =
      Except.ok (Json.obj [])) :=
  ⟨by decide, rfl,
   missing_envelope_field_defaults_to_empty [] "K" "PEM" DEFAULT_BASE_URL
     (by decide) (fun s => s) (fun s => s) 0 10 5 42 "open" "T" "unsettled"
     "resting" "OID" rfl rfl rfl rfl rfl rfl rfl rfl rfl⟩

/-- C7 counterexample: an explicitly supplied empty-string api_key is not
used — Python `or` treats it as falsy, so the environment variable wins
over the supplied argument. -/
theorem explicit_credential_precedence_counterexample :
    (kalshiClientInit (some "") (some "PEM") none false (some "ENVKEY")
        none).api_key = some "ENVKEY" ∧
    some "ENVKEY" ≠ some ("" : String) :=
  ⟨rfl, by decide⟩

/-- C7 amended: each credential field is resolved at construction with
precedence explicit non-empty argument over environment variable: a
non-empty explicit api_key (resp. private_key_pem) is used and the
environment is ignored entirely, while an absent argument falls back to
the environment value; an empty-string explicit argument is treated as
absent. The resolution is performed once, into the returned configuration
value, which is all later operations consult. -/
theorem explicit_credential_precedence_amended
    (a pem : String) (ha : a ≠ "") (hp : pem ≠ "")
    (e1 e2 f1 f2 b : Option String) (demo : Bool) :
    (kalshiClientInit (some a) (some pem) b demo e1 e2).api_key = some a ∧
    (kalshiClientInit (some a) (some pem) b demo e1 e2).private_key_pem =
      some pem ∧
    kalshiClientInit (some a) (some pem) b demo e1 e2 =
      kalshiClientInit (some a) (some pem) b demo f1 f2 ∧
    (kalshiClientInit none none b demo e1 e2).api_key = e1 ∧
    (kalshiClientInit none none b demo e1 e2).private_key_pem = e2 := by
  refine ⟨?_, ?_, ?_, ?_, ?_⟩ <;> simp [kalshiClientInit, pyOr, ha, hp]

/-- Witness for C7's amended theorem. -/
theorem explicit_credential_precedence_amended_witness :
    ("A" : String) ≠ "" ∧ ("P" : String) ≠ "" ∧
    ((kalshiClientInit (some "A") (some "P") none false (some "E1")
        (some "E2")).api_key = some "A" ∧
     (kalshiClientInit (some "A") (some "P") none false (some "E1")
        (some "E2")).private_key_pem = some "P" ∧
     kalshiClientInit (some "A") (some "P") none false (some "E1")
        (some "E2") =
       kalshiClientInit (some "A") (some "P") none false none none ∧
     (kalshiClientInit none none none false (some "E1")
        (some "E2")).api_key = some "E1" ∧
     (kalshiClientInit none none none false (some "E1")
        (some "E2")).private_key_pem = some "E2") :=
  ⟨by decide, by decide,
   explicit_credential_precedence_amended "A" "P" (by decide) (by decide)
     (some "E1") (some "E2") none none none false⟩

/-- C8: a successful sign(method, path) returns exactly the four headers
KALSHI-ACCESS-KEY, KALSHI-ACCESS-SIGNATURE (the base64 encoding of the
raw signature bytes), KALSHI-ACCESS-TIMESTAMP (the millisecond clock
reading as a decimal string) and Content-Type: application/json, and the
KALSHI-ACCESS-TIMESTAMP value is the very timestamp string embedded in
the signed message — the clock is read once and reused. -/
theorem auth_header_set_shape
    (k pk burl : String) (hk : k ≠ "")
    (sign b64encode : String → String) (now_ms : Nat)
    (method path : String) :
    getAuthHeaders ⟨some k, some pk, burl, some pk⟩ sign b64encode now_ms
        method path =
      Except.ok
        [("KALSHI-ACCESS-KEY", k),
         ("KALSHI-ACCESS-SIGNATURE",
           b64encode (sign (signedMessage (toString now_ms) method path))),
         ("KALSHI-ACCESS-TIMESTAMP", toString now_ms),
         ("Content-Type", "application/json")] := by
  simp [getAuthHeaders, pyTruthyOptStr, hk]

/-- Witness for C8 at concrete inputs. -/
theorem auth_header_set_shape_witness :
    ("K" : String) ≠ "" ∧
    getAuthHeaders ⟨some "K", some "PEM", DEFAULT_BASE_URL, some "PEM"⟩
        (fun s => s ++ "!") (fun s => "b64:" ++ s) 1700000000000
        "GET" "/portfolio/balance" =
      Except.ok
        [("KALSHI-ACCESS-KEY", "K"),
         ("KALSHI-ACCESS-SIGNATURE",
           (fun s => "b64:" ++ s)
             ((fun s => s ++ "!")
               (signedMessage (toString (1700000000000 : Nat)) "GET"
                 "/portfolio/balance"))),
         ("KALSHI-ACCESS-TIMESTAMP", toString (1700000000000 : Nat)),
         ("Content-Type", "application/json")] :=
  ⟨by decide,
   auth_header_set_shape "K" "PEM" DEFAULT_BASE_URL (by decide)
     (fun s => s ++ "!") (fun s => "b64:" ++ s) 1700000000000 "GET"
     "/portfolio/balance"⟩

/-- C9: demo=true selects the demo base URL regardless of any explicit
base_url override; with demo=false and no override the production URL is
used; with demo=false and a non-empty override the override is used; and
the demo URL differs from the production URL, so demo=true never yields
the production URL. -/
theorem demo_flag_precedence_over_base_url
    (a p e1 e2 b : Option String) (u : String) (hu : u ≠ "") :
    (kalshiClientInit a p b true e1 e2).base_url = DEMO_BASE_URL ∧
    (kalshiClientInit a p none false e1 e2).base_url = DEFAULT_BASE_URL ∧
    (kalshiClientInit a p (some u) false e1 e2).base_url = u ∧
    DEMO_BASE_URL ≠ DEFAULT_BASE_URL := by
  refine ⟨?_, ?_, ?_, ?_⟩
  · simp [kalshiClientInit]
  · simp [kalshiClientInit]
  · simp [kalshiClientInit, hu]
  · decide

/-- Witness for C9 at concrete inputs. -/
theorem demo_flag_precedence_over_base_url_witness :
    ("https://example.test/override" : String) ≠ "" ∧
    ((kalshiClientInit none none (some "https://example.test/override")
        true none none).base_url = DEMO_BASE_URL ∧
     (kalshiClientInit none none none false none none).base_url =
       DEFAULT_BASE_URL ∧
     (kalshiClientInit none none (some "https://example.test/override")
        false none none).base_url = "https://example.test/override" ∧
     DEMO_BASE_URL ≠ DEFAULT_BASE_URL) :=
  ⟨by decide,
   demo_flag_precedence_over_base_url none none none none
     (some "https://example.test/override") "https://example.test/override"
     (by decide)⟩
